import Mathlib

/-!
Verification of the Homebox inventory search tool (`homebox_search.py`).

The tool is four read-only operations (`search_items`, `get_item_details`,
`list_locations`, `search_items_by_location`) over a remote JSON HTTP API.
We shallowly embed the Python module:

* JSON values are the inductive `Json` (JSON numbers are modelled as
  integers; floating point is outside the scope of the claims checked here).
* Python dictionaries produced by `json.loads` have unique keys, so objects
  are association lists read with first-match `List.lookup`.
* Python exceptions raised inside the `try:` blocks (KeyError, TypeError,
  ZeroDivisionError, IndexError) are modelled with `Except PyErr`; the
  operation wrappers convert them to strings exactly like the
  `except` clauses of the source.
* The HTTP layer is a function `net : Request → HttpOutcome`; an outcome is
  a 2xx response with parsed JSON (`success`), a non-2xx status
  (`httpError`, raised by `raise_for_status`), a connection failure
  (`connError`, raised by `requests.get`) or malformed JSON (`badJson`,
  raised by `response.json()`; in requests >= 2.27 this exception is a
  `RequestException` and is caught by the first `except` clause).
  Each operation returns the produced string together with the request it
  issued (`none` when it returned before any network call).
* `str()` of a Python string/int/bool/None is modelled exactly; `repr`
  of nested containers is modelled up to CPython's quote-selection and
  control-character escaping details, which no claim depends on.
-/

namespace HomeboxSearch

/-- A JSON value as decoded by `response.json()`. -/
inductive Json where
  | null : Json
  | bool : Bool → Json
  | num : Int → Json
  | str : String → Json
  | arr : List Json → Json
  | obj : List (String × Json) → Json

/-- A Python exception that the formatting code can raise. -/
inductive PyErr where
  | keyError : String → PyErr
  | keyErrorNat : Nat → PyErr
  | indexError : String → PyErr
  | typeError : String → PyErr
  | zeroDivisionError : PyErr
deriving DecidableEq

/-- The text `str(e)` of a modelled exception (`str(KeyError(k))` keeps the
quotes around the key). -/
def PyErr.msg : PyErr → String
  | .keyError k => "'" ++ k ++ "'"
  | .keyErrorNat n => toString n
  | .indexError m => m
  | .typeError m => m
  | .zeroDivisionError => "integer division or modulo by zero"

/-- Python truthiness of a JSON value. -/
def Json.truthy : Json → Bool
  | .null => false
  | .bool b => b
  | .num n => n != 0
  | .str s => s != ""
  | .arr xs => !xs.isEmpty
  | .obj kvs => !kvs.isEmpty

/-- Key lookup in a decoded JSON object, `none` on anything else. -/
def Json.lookup? : Json → String → Option Json
  | .obj kvs, k => kvs.lookup k
  | _, _ => none

/-- Whether a key is mapped to a truthy value, the condition of the
`if KEY in item and item[KEY]:` idiom on an object. -/
def Json.keyTruthy (j : Json) (k : String) : Bool :=
  match j.lookup? k with
  | some v => v.truthy
  | none => false

/-- The Python expression `value[k]` for a string subscript `k`. -/
def Json.getField : Json → String → Except PyErr Json
  | .obj kvs, k =>
    match kvs.lookup k with
    | some v => .ok v
    | none => .error (.keyError k)
  | .arr _, _ => .error (.typeError "list indices must be integers or slices, not str")
  | .str _, _ => .error (.typeError "string indices must be integers")
  | .null, _ => .error (.typeError "'NoneType' object is not subscriptable")
  | .bool _, _ => .error (.typeError "'bool' object is not subscriptable")
  | .num _, _ => .error (.typeError "'int' object is not subscriptable")

/-- The Python expression `k in value` for a string `k`. -/
def pyIn (k : String) : Json → Except PyErr Bool
  | .obj kvs => .ok (kvs.lookup k).isSome
  | .arr xs => .ok (xs.any fun v => match v with | .str s => s == k | _ => false)
  | .str s => .ok (decide (k.data <:+: s.data))
  | .null => .error (.typeError "argument of type 'NoneType' is not iterable")
  | .bool _ => .error (.typeError "argument of type 'bool' is not iterable")
  | .num _ => .error (.typeError "argument of type 'int' is not iterable")

/-- The Python expression `len(value)`. -/
def pyLen : Json → Except PyErr Nat
  | .arr xs => .ok xs.length
  | .str s => .ok s.length
  | .obj kvs => .ok kvs.length
  | .null => .error (.typeError "object of type 'NoneType' has no len()")
  | .bool _ => .error (.typeError "object of type 'bool' has no len()")
  | .num _ => .error (.typeError "object of type 'int' has no len()")

/-- Iteration (`for x in value`): list elements, characters of a string,
keys of a dictionary. -/
def pyElems : Json → Except PyErr (List Json)
  | .arr xs => .ok xs
  | .str s => .ok (s.data.map fun c => .str (String.mk [c]))
  | .obj kvs => .ok (kvs.map fun p => .str p.1)
  | .null => .error (.typeError "'NoneType' object is not iterable")
  | .bool _ => .error (.typeError "'bool' object is not iterable")
  | .num _ => .error (.typeError "'int' object is not iterable")

/-- The Python expression `value[0]`. -/
def pyIndexZero : Json → Except PyErr Json
  | .arr (x :: _) => .ok x
  | .arr [] => .error (.indexError "list index out of range")
  | .str s =>
    match s.data with
    | c :: _ => .ok (.str (String.mk [c]))
    | [] => .error (.indexError "string index out of range")
  | .obj _ => .error (.keyErrorNat 0)
  | .null => .error (.typeError "'NoneType' object is not subscriptable")
  | .bool _ => .error (.typeError "'bool' object is not subscriptable")
  | .num _ => .error (.typeError "'int' object is not subscriptable")

/-- Coercion used by the arithmetic `data['total'] + page_size - 1`
(Python bools are ints; everything else raises TypeError). -/
def Json.asArithInt : Json → Except PyErr Int
  | .num n => .ok n
  | .bool b => .ok (if b then 1 else 0)
  | .null => .error (.typeError "unsupported operand type(s) for +: 'NoneType' and 'int'")
  | .str _ => .error (.typeError "can only concatenate str (not \x22int\x22) to str")
  | .arr _ => .error (.typeError "can only concatenate list (not \x22int\x22) to list")
  | .obj _ => .error (.typeError "unsupported operand type(s) for +: 'dict' and 'int'")

/-- Python `repr` of a decoded JSON value (up to CPython's quote-selection
and escaping of exotic characters inside string reprs). -/
def pyRepr : Json → String
  | .null => "None"
  | .bool true => "True"
  | .bool false => "False"
  | .num n => toString n
  | .str s => "'" ++ s ++ "'"
  | .arr xs =>
    "[" ++ String.intercalate ", " (xs.attach.map fun x => pyRepr x.1) ++ "]"
  | .obj kvs =>
    "\x7b" ++
      String.intercalate ", "
        (kvs.attach.map fun p => "'" ++ p.1.1 ++ "': " ++ pyRepr p.1.2) ++
      "\x7d"
decreasing_by
  · have h := List.sizeOf_lt_of_mem x.2
    simp only [Json.arr.sizeOf_spec]
    omega
  · have h := List.sizeOf_lt_of_mem p.2
    have h2 : sizeOf p.1.2 < sizeOf p.1 := by
      obtain ⟨a, b⟩ := p.1
      simp only [Prod.mk.sizeOf_spec]
      omega
    simp only [Json.obj.sizeOf_spec]
    omega

/-- Python `str` of a decoded JSON value, as interpolated by the
f-strings of the source (`str` and `repr` agree on containers). -/
def pyStr : Json → String
  | .str s => s
  | .num n => toString n
  | .bool true => "True"
  | .bool false => "False"
  | .null => "None"
  | j => pyRepr j

/-- Python `s.endswith(sfx)`. -/
def strEndsWith (s sfx : String) : Bool :=
  sfx.data.isSuffixOf s.data

/-- Python `s.rstrip('/')`: remove every trailing `'/'`. -/
def rstripSlash (s : String) : String :=
  String.mk (s.data.reverse.dropWhile (fun c => c == '/')).reverse

/-- The URL normalization done at the top of every operation
(`base_url = homebox_url.rstrip('/')`, then append `"/api"` unless
`base_url.endswith('/api')`). -/
def normalizeUrl (u : String) : String :=
  let base_url := rstripSlash u
  if strEndsWith base_url "/api" then base_url else base_url ++ "/api"

/-- The three configuration values of `Tools.Valves` (all default `""`). -/
structure Valves where
  homebox_url : String
  cf_client_id : String
  cf_client_secret : String

/-- Header construction of `Tools._get_headers`. -/
def get_headers (v : Valves) : List (String × String) :=
  let headers := [("Content-Type", "application/json"), ("Accept", "application/json")]
  if v.cf_client_id ≠ "" ∧ v.cf_client_secret ≠ "" then
    headers ++ [("CF-Access-Client-Id", v.cf_client_id),
                ("CF-Access-Client-Secret", v.cf_client_secret)]
  else
    headers

/-- The fixed message returned by every operation when `homebox_url` is
unset. -/
def configErrorMsg : String :=
  "Error: Homebox API URL is required. Please set your Homebox API URL in the tool settings."

/-- The idiom `if KEY in item and item[KEY]: out += f"PFX{item[KEY]}SFX"`,
returning the emitted text (possibly empty). -/
def truthyField (item : Json) (key pfx sfx : String) : Except PyErr String := do
  let b ← pyIn key item
  if b then do
    let v ← item.getField key
    if v.truthy then pure (pfx ++ pyStr v ++ sfx) else pure ""
  else
    pure ""

/-- The idiom `if KEY in item: out += f"PFX{item[KEY]}SFX"` used for the
quantity lines: no truthiness test, only key presence. -/
def presentField (item : Json) (key pfx sfx : String) : Except PyErr String := do
  let b ← pyIn key item
  if b then do
    let v ← item.getField key
    pure (pfx ++ pyStr v ++ sfx)
  else
    pure ""

/-- The idiom `if KEY in item and item[KEY]: infos.append(f"PFX{item[KEY]}")`
used to build the purchase/warranty entry lists. -/
def truthyEntry (item : Json) (key pfx : String) : Except PyErr (List String) := do
  let b ← pyIn key item
  if b then do
    let v ← item.getField key
    if v.truthy then pure [pfx ++ pyStr v] else pure []
  else
    pure []

/-- The nested idiom
`if 'location' in item and item['location']: out += f"PFX{item['location']['name']}SFX"`. -/
def locationLine (item : Json) (pfx sfx : String) : Except PyErr String := do
  let b ← pyIn "location" item
  if b then do
    let loc ← item.getField "location"
    if loc.truthy then do
      let nm ← loc.getField "name"
      pure (pfx ++ pyStr nm ++ sfx)
    else
      pure ""
  else
    pure ""

/-- Render `f"{idx}. {item['name']}\n"` followed by the optional field lines
of one `search_items` result block (description, location, assetId,
quantity, manufacturer, modelNumber) and the blank separator line. -/
def searchItemBlock (idx : Nat) (item : Json) : Except PyErr String := do
  let name ← item.getField "name"
  let desc ← truthyField item "description" "   Description: " "\n"
  let loc ← locationLine item "   Location: " "\n"
  let asset ← truthyField item "assetId" "   Asset ID: " "\n"
  let qty ← presentField item "quantity" "   Quantity: " "\n"
  let man ← truthyField item "manufacturer" "   Manufacturer: " "\n"
  let mdl ← truthyField item "modelNumber" "   Model: " "\n"
  pure (toString idx ++ ". " ++ pyStr name ++ "\n"
    ++ desc ++ loc ++ asset ++ qty ++ man ++ mdl ++ "\n")

/-- The per-item block of `search_items_by_location` (no manufacturer and
no model line, unlike `searchItemBlock`). -/
def locItemBlock (idx : Nat) (item : Json) : Except PyErr String := do
  let name ← item.getField "name"
  let desc ← truthyField item "description" "   Description: " "\n"
  let asset ← truthyField item "assetId" "   Asset ID: " "\n"
  let qty ← presentField item "quantity" "   Quantity: " "\n"
  pure (toString idx ++ ". " ++ pyStr name ++ "\n" ++ desc ++ asset ++ qty ++ "\n")

/-- The `for idx, item in enumerate(..., 1)` loops: render consecutive
blocks, propagating the first raised exception. -/
def renderBlocks (blk : Nat → Json → Except PyErr String) :
    List Json → Nat → Except PyErr String
  | [], _ => pure ""
  | it :: rest, idx => do
    let s ← blk idx it
    let r ← renderBlocks blk rest (idx + 1)
    pure (s ++ r)

/-- The pagination footer shared by `search_items` and
`search_items_by_location`: `total_pages = (total + page_size - 1) // page_size`
(Python floor division, raising ZeroDivisionError on `page_size = 0`),
a `Page P of N` line, and a next-page hint when `page < total_pages`. -/
def paginationFooter (page pageSize : Int) (total : Json) : Except PyErr String := do
  let t ← total.asArithInt
  if pageSize = 0 then
    Except.error PyErr.zeroDivisionError
  else do
    let total_pages := (t + pageSize - 1).fdiv pageSize
    let base := "Page " ++ toString page ++ " of " ++ toString total_pages ++ "\n"
    if page < total_pages then
      pure (base ++ "Use 'page=" ++ toString (page + 1) ++ "' to see more results.")
    else
      pure base

/-- The shared guard `if 'data' in data and len(data['data']) > 0:`. -/
def dataNonempty (data : Json) : Except PyErr Bool := do
  let hasData ← pyIn "data" data
  if hasData then do
    let d ← data.getField "data"
    let n ← pyLen d
    pure (decide (n > 0))
  else
    pure false

/-- Body of the `try:` block of `search_items`, from the parsed JSON to the
returned string. -/
def search_items_fmt (query : String) (page pageSize : Int) (data : Json) :
    Except PyErr String := do
  let nonempty ← dataNonempty data
  if nonempty then do
    let total ← data.getField "total"
    let d ← data.getField "data"
    let elems ← pyElems d
    let body ← renderBlocks searchItemBlock elems 1
    let footer ← paginationFooter page pageSize total
    pure ("Found " ++ pyStr total ++ " items matching '" ++ query ++ "':\n\n"
      ++ body ++ footer)
  else
    pure ("No items found matching '" ++ query ++ "'.")

/-- The `warranty_info` entry list of `get_item_details` (lines 189-197 of
the source): a literal `Yes` entry gated on the truthiness of
`lifetimeWarranty`, then the details and expiry entries. -/
def warrantyEntries (item : Json) : Except PyErr (List String) := do
  let b ← pyIn "lifetimeWarranty" item
  let lw ←
    if b then do
      let v ← item.getField "lifetimeWarranty"
      if v.truthy then pure ["- Lifetime Warranty: Yes"] else pure []
    else
      pure ([] : List String)
  let wd ← truthyEntry item "warrantyDetails" "- Warranty Details: "
  let we ← truthyEntry item "warrantyExpires" "- Warranty Expires: "
  pure (lw ++ wd ++ we)

/-- Python `sep.join(entries)`. -/
def pyJoin (sep : String) : List String → String
  | [] => ""
  | [x] => x
  | x :: xs => x ++ sep ++ pyJoin sep xs

/-- Render an entry list under a heading, or nothing when the list is
empty (the `if purchase_info:` / `if warranty_info:` pattern). -/
def entrySection (heading : String) (entries : List String) : String :=
  if entries.isEmpty then "" else heading ++ pyJoin "\n" entries ++ "\n"

/-- The `Warranty Information` part of the `get_item_details` output. -/
def warrantySection (item : Json) : Except PyErr String := do
  let entries ← warrantyEntries item
  pure (entrySection "\nWarranty Information:\n" entries)

/-- The `Purchase Information` part of the `get_item_details` output. -/
def purchaseSection (item : Json) : Except PyErr String := do
  let a ← truthyEntry item "purchaseFrom" "- Purchased From: "
  let b ← truthyEntry item "purchasePrice" "- Purchase Price: "
  let c ← truthyEntry item "purchaseTime" "- Purchase Date: "
  pure (entrySection "\nPurchase Information:\n" (a ++ b ++ c))

/-- The `for field in item['fields']` loop body of `get_item_details`. -/
def customFieldEntries : List Json → Except PyErr String
  | [] => pure ""
  | f :: rest => do
    let n ← f.getField "name"
    let v ← f.getField "value"
    let r ← customFieldEntries rest
    pure ("- " ++ pyStr n ++ ": " ++ pyStr v ++ "\n" ++ r)

/-- The `Custom Fields` part of the `get_item_details` output. -/
def customFieldsSection (item : Json) : Except PyErr String := do
  let b ← pyIn "fields" item
  if b then do
    let fs ← item.getField "fields"
    if fs.truthy then do
      let elems ← pyElems fs
      let body ← customFieldEntries elems
      pure ("\nCustom Fields:\n" ++ body)
    else
      pure ""
  else
    pure ""

/-- Body of the `try:` block of `get_item_details`, from the parsed JSON
item to the returned string. -/
def get_item_details_fmt (item : Json) : Except PyErr String := do
  let name ← item.getField "name"
  let desc ← truthyField item "description" "Description: " "\n\n"
  let asset ← truthyField item "assetId" "- Asset ID: " "\n"
  let qty ← presentField item "quantity" "- Quantity: " "\n"
  let man ← truthyField item "manufacturer" "- Manufacturer: " "\n"
  let mdl ← truthyField item "modelNumber" "- Model Number: " "\n"
  let ser ← truthyField item "serialNumber" "- Serial Number: " "\n"
  let loc ← locationLine item "\nLocation: " "\n"
  let pur ← purchaseSection item
  let war ← warrantySection item
  let cf ← customFieldsSection item
  let notes ← truthyField item "notes" "\nNotes:\n" "\n"
  pure ("Item Details: " ++ pyStr name ++ "\n\n" ++ desc
    ++ "Basic Information:\n" ++ asset ++ qty ++ man ++ mdl ++ ser
    ++ loc ++ pur ++ war ++ cf ++ notes)

/-- One numbered entry of the `list_locations` output. -/
def locationBlock (idx : Nat) (loc : Json) : Except PyErr String := do
  let name ← loc.getField "name"
  let desc ← truthyField loc "description" "   Description: " "\n"
  let lid ← loc.getField "id"
  pure (toString idx ++ ". " ++ pyStr name ++ "\n" ++ desc
    ++ "   ID: " ++ pyStr lid ++ "\n\n")

/-- Body of the `try:` block of `list_locations`. -/
def list_locations_fmt (data : Json) : Except PyErr String := do
  let nonempty ← dataNonempty data
  if nonempty then do
    let d ← data.getField "data"
    let n ← pyLen d
    let elems ← pyElems d
    let body ← renderBlocks locationBlock elems 1
    pure ("Found " ++ toString n ++ " locations:\n\n" ++ body)
  else
    pure "No locations found."

/-- Lines 286-289 of the source: the displayed location name is taken from
the first returned item's `location` field when that is present and
truthy, and is the fixed `"Unknown Location"` otherwise. -/
def locationDisplayName (d : Json) : Except PyErr String := do
  let n ← pyLen d
  if n > 0 then do
    let first ← pyIndexZero d
    let b ← pyIn "location" first
    if b then do
      let loc ← first.getField "location"
      if loc.truthy then do
        let nm ← loc.getField "name"
        pure (pyStr nm)
      else
        pure "Unknown Location"
    else
      pure "Unknown Location"
  else
    pure "Unknown Location"

/-- Body of the `try:` block of `search_items_by_location`. -/
def search_items_by_location_fmt (page pageSize : Int) (data : Json) :
    Except PyErr String := do
  let nonempty ← dataNonempty data
  if nonempty then do
    let d ← data.getField "data"
    let locName ← locationDisplayName d
    let total ← data.getField "total"
    let elems ← pyElems d
    let body ← renderBlocks locItemBlock elems 1
    let footer ← paginationFooter page pageSize total
    pure ("Found " ++ pyStr total ++ " items in location '" ++ locName ++ "':\n\n"
      ++ body ++ footer)
  else
    pure "No items found in the specified location."

/-- A query-string parameter value. -/
inductive ParamVal where
  | str : String → ParamVal
  | int : Int → ParamVal
  | strList : List String → ParamVal

/-- An outbound HTTP GET request. -/
structure Request where
  url : String
  params : List (String × ParamVal)
  headers : List (String × String)

/-- What the HTTP layer does with a request: a 2xx response with parsed
JSON, a non-2xx status, a connection failure, or a 2xx response whose body
is not JSON. -/
inductive HttpOutcome where
  | success : Json → HttpOutcome
  | httpError : String → HttpOutcome
  | connError : String → HttpOutcome
  | badJson : String → HttpOutcome

/-- `Tools.search_items`: the returned string, together with the request
issued (`none` when the operation returned before any network call). -/
def search_items (v : Valves) (query : String) (page pageSize : Int)
    (net : Request → HttpOutcome) : String × Option Request :=
  if v.homebox_url = "" then
    (configErrorMsg, none)
  else
    let base_url := normalizeUrl v.homebox_url
    let req : Request :=
      { url := base_url ++ "/v1/items"
        params := [("q", ParamVal.str query), ("page", ParamVal.int page),
                   ("pageSize", ParamVal.int pageSize)]
        headers := get_headers v }
    match net req with
    | HttpOutcome.success data =>
      match search_items_fmt query page pageSize data with
      | Except.ok s => (s, some req)
      | Except.error e => ("Unexpected error: " ++ e.msg, some req)
    | HttpOutcome.httpError m => ("Error searching items: " ++ m, some req)
    | HttpOutcome.connError m => ("Error searching items: " ++ m, some req)
    | HttpOutcome.badJson m => ("Error searching items: " ++ m, some req)

/-- `Tools.get_item_details`. -/
def get_item_details (v : Valves) (item_id : String)
    (net : Request → HttpOutcome) : String × Option Request :=
  if v.homebox_url = "" then
    (configErrorMsg, none)
  else
    let base_url := normalizeUrl v.homebox_url
    let req : Request :=
      { url := base_url ++ "/v1/items/" ++ item_id
        params := []
        headers := get_headers v }
    match net req with
    | HttpOutcome.success item =>
      match get_item_details_fmt item with
      | Except.ok s => (s, some req)
      | Except.error e => ("Unexpected error: " ++ e.msg, some req)
    | HttpOutcome.httpError m => ("Error retrieving item details: " ++ m, some req)
    | HttpOutcome.connError m => ("Error retrieving item details: " ++ m, some req)
    | HttpOutcome.badJson m => ("Error retrieving item details: " ++ m, some req)

/-- `Tools.list_locations`. -/
def list_locations (v : Valves) (net : Request → HttpOutcome) :
    String × Option Request :=
  if v.homebox_url = "" then
    (configErrorMsg, none)
  else
    let base_url := normalizeUrl v.homebox_url
    let req : Request :=
      { url := base_url ++ "/v1/locations"
        params := []
        headers := get_headers v }
    match net req with
    | HttpOutcome.success data =>
      match list_locations_fmt data with
      | Except.ok s => (s, some req)
      | Except.error e => ("Unexpected error: " ++ e.msg, some req)
    | HttpOutcome.httpError m => ("Error listing locations: " ++ m, some req)
    | HttpOutcome.connError m => ("Error listing locations: " ++ m, some req)
    | HttpOutcome.badJson m => ("Error listing locations: " ++ m, some req)

/-- `Tools.search_items_by_location`. -/
def search_items_by_location (v : Valves) (location_id : String)
    (page pageSize : Int) (net : Request → HttpOutcome) :
    String × Option Request :=
  if v.homebox_url = "" then
    (configErrorMsg, none)
  else
    let base_url := normalizeUrl v.homebox_url
    let req : Request :=
      { url := base_url ++ "/v1/items"
        params := [("locations", ParamVal.strList [location_id]),
                   ("page", ParamVal.int page), ("pageSize", ParamVal.int pageSize)]
        headers := get_headers v }
    match net req with
    | HttpOutcome.success data =>
      match search_items_by_location_fmt page pageSize data with
      | Except.ok s => (s, some req)
      | Except.error e => ("Unexpected error: " ++ e.msg, some req)
    | HttpOutcome.httpError m => ("Error searching items by location: " ++ m, some req)
    | HttpOutcome.connError m => ("Error searching items by location: " ++ m, some req)
    | HttpOutcome.badJson m => ("Error searching items by location: " ++ m, some req)

/-- The string `s` embeds `t` as a contiguous substring. -/
def embedsStr (s t : String) : Prop :=
  ∃ p q : String, s = p ++ t ++ q

/-- Python `s.startswith(pfx)`. -/
def strStartsWith (s pfx : String) : Bool :=
  pfx.data.isPrefixOf s.data

/-- Remove every trailing slash, written as the claim's phrase "strip a
trailing '/'" iterated to a fixed point (spec-side reference definition,
to compare with the source's `rstrip('/')`). -/
def stripTrailingSlashesRev : List Char → List Char
  | [] => []
  | c :: cs => if c = '/' then stripTrailingSlashesRev cs else c :: cs

/-- Spec-side reference form of URL trimming: all trailing slashes gone. -/
def stripTrailingSlashes (u : String) : String :=
  String.mk (stripTrailingSlashesRev u.data.reverse).reverse

/-- Modelled from the claim's words (C3): strip exactly ONE trailing `/`
if present, then append `/api` unless the trimmed URL already ends with
`/api`. -/
def normalizeUrlOneSlashSpec (u : String) : String :=
  let t := if strEndsWith u "/" then String.mk u.data.dropLast else u
  if strEndsWith t "/api" then t else t ++ "/api"

/-- The value `truthyEntry` computes on an object (evaluation helper). -/
def truthyEntryVal (kvs : List (String × Json)) (k pfx : String) : List String :=
  match kvs.lookup k with
  | some v => if v.truthy then [pfx ++ pyStr v] else []
  | none => []

/-- The value `warrantyEntries` computes on an object (evaluation
helper). -/
def warrantyEntriesVal (kvs : List (String × Json)) : List String :=
  (if (Json.obj kvs).keyTruthy "lifetimeWarranty" then ["- Lifetime Warranty: Yes"] else [])
    ++ truthyEntryVal kvs "warrantyDetails" "- Warranty Details: "
    ++ truthyEntryVal kvs "warrantyExpires" "- Warranty Expires: "

/-- C2: with an empty configured base URL, each of the four operations
returns the fixed configuration-error string and issues no network
request, whatever its other arguments and whatever the network would
answer. -/
theorem c2_empty_url_returns_config_error_without_request
    (v : Valves) (hv : v.homebox_url = "")
    (query item_id location_id : String) (page pageSize : Int)
    (net : Request → HttpOutcome) :
    search_items v query page pageSize net = (configErrorMsg, none)
    ∧ get_item_details v item_id net = (configErrorMsg, none)
    ∧ list_locations v net = (configErrorMsg, none)
    ∧ search_items_by_location v location_id page pageSize net = (configErrorMsg, none) := by
  refine ⟨?_, ?_, ?_, ?_⟩ <;>
    simp [search_items, get_item_details, list_locations, search_items_by_location, hv]

/-- Concrete instance of C2. -/
theorem c2_witness :
    search_items ⟨"", "id", "secret"⟩ "drill" 1 20 (fun _ => HttpOutcome.httpError "boom")
      = (configErrorMsg, none)
    ∧ list_locations ⟨"", "", ""⟩ (fun _ => HttpOutcome.connError "x") = (configErrorMsg, none) := by
  have h1 := c2_empty_url_returns_config_error_without_request ⟨"", "id", "secret"⟩ rfl
    "drill" "i" "l" 1 20 (fun _ => HttpOutcome.httpError "boom")
  have h2 := c2_empty_url_returns_config_error_without_request ⟨"", "", ""⟩ rfl
    "q" "i" "l" 1 20 (fun _ => HttpOutcome.connError "x")
  exact ⟨h1.1, h2.2.2.1⟩

/-- C1: with a configured base URL, every HTTP-layer failure (non-2xx
status, connection failure, malformed JSON) and every exception raised
while formatting a 2xx body (e.g. a missing field) is converted by each
of the four operations into a returned string that embeds the underlying
error text; no exception crosses the operation boundary (the model is a
total function into strings, and every failure case is enumerated
here). -/
theorem c1_failures_become_error_strings
    (v : Valves) (hv : v.homebox_url ≠ "")
    (query item_id location_id : String) (page pageSize : Int)
    (m : String) (dataS itemG dataL dataB : Json) (eS eG eL eB : PyErr) :
    ((search_items v query page pageSize (fun _ => HttpOutcome.httpError m)).1
        = "Error searching items: " ++ m)
    ∧ ((search_items v query page pageSize (fun _ => HttpOutcome.connError m)).1
        = "Error searching items: " ++ m)
    ∧ ((search_items v query page pageSize (fun _ => HttpOutcome.badJson m)).1
        = "Error searching items: " ++ m)
    ∧ (search_items_fmt query page pageSize dataS = Except.error eS →
        (search_items v query page pageSize (fun _ => HttpOutcome.success dataS)).1
          = "Unexpected error: " ++ eS.msg)
    ∧ ((get_item_details v item_id (fun _ => HttpOutcome.httpError m)).1
        = "Error retrieving item details: " ++ m)
    ∧ ((get_item_details v item_id (fun _ => HttpOutcome.connError m)).1
        = "Error retrieving item details: " ++ m)
    ∧ ((get_item_details v item_id (fun _ => HttpOutcome.badJson m)).1
        = "Error retrieving item details: " ++ m)
    ∧ (get_item_details_fmt itemG = Except.error eG →
        (get_item_details v item_id (fun _ => HttpOutcome.success itemG)).1
          = "Unexpected error: " ++ eG.msg)
    ∧ ((list_locations v (fun _ => HttpOutcome.httpError m)).1
        = "Error listing locations: " ++ m)
    ∧ ((list_locations v (fun _ => HttpOutcome.connError m)).1
        = "Error listing locations: " ++ m)
    ∧ ((list_locations v (fun _ => HttpOutcome.badJson m)).1
        = "Error listing locations: " ++ m)
    ∧ (list_locations_fmt dataL = Except.error eL →
        (list_locations v (fun _ => HttpOutcome.success dataL)).1
          = "Unexpected error: " ++ eL.msg)
    ∧ ((search_items_by_location v location_id page pageSize
          (fun _ => HttpOutcome.httpError m)).1
        = "Error searching items by location: " ++ m)
    ∧ ((search_items_by_location v location_id page pageSize
          (fun _ => HttpOutcome.connError m)).1
        = "Error searching items by location: " ++ m)
    ∧ ((search_items_by_location v location_id page pageSize
          (fun _ => HttpOutcome.badJson m)).1
        = "Error searching items by location: " ++ m)
    ∧ (search_items_by_location_fmt page pageSize dataB = Except.error eB →
        (search_items_by_location v location_id page pageSize
            (fun _ => HttpOutcome.success dataB)).1
          = "Unexpected error: " ++ eB.msg)
    ∧ embedsStr (search_items v query page pageSize
          (fun _ => HttpOutcome.httpError m)).1 m
    ∧ embedsStr (get_item_details v item_id (fun _ => HttpOutcome.httpError m)).1 m
    ∧ embedsStr (list_locations v (fun _ => HttpOutcome.httpError m)).1 m
    ∧ embedsStr (search_items_by_location v location_id page pageSize
          (fun _ => HttpOutcome.httpError m)).1 m := by
  refine ⟨?_, ?_, ?_, ?_, ?_, ?_, ?_, ?_, ?_, ?_, ?_, ?_, ?_, ?_, ?_, ?_, ?_, ?_, ?_, ?_⟩
  · simp [search_items, hv]
  · simp [search_items, hv]
  · simp [search_items, hv]
  · intro h; simp [search_items, hv, h]
  · simp [get_item_details, hv]
  · simp [get_item_details, hv]
  · simp [get_item_details, hv]
  · intro h; simp [get_item_details, hv, h]
  · simp [list_locations, hv]
  · simp [list_locations, hv]
  · simp [list_locations, hv]
  · intro h; simp [list_locations, hv, h]
  · simp [search_items_by_location, hv]
  · simp [search_items_by_location, hv]
  · simp [search_items_by_location, hv]
  · intro h; simp [search_items_by_location, hv, h]
  · exact ⟨"Error searching items: ", "", by simp [search_items, hv]⟩
  · exact ⟨"Error retrieving item details: ", "", by simp [get_item_details, hv]⟩
  · exact ⟨"Error listing locations: ", "", by simp [list_locations, hv]⟩
  · exact ⟨"Error searching items by location: ", "", by simp [search_items_by_location, hv]⟩

/-- Concrete instance of C1: an HTTP 500 and a body whose formatting
raises (a 2xx body that is the number 3, on which `'data' in data`
raises TypeError). -/
theorem c1_witness :
    ((search_items ⟨"http://h", "", ""⟩ "q" 1 20 (fun _ => HttpOutcome.httpError
        "500 Server Error: Internal Server Error for url: http://h/api/v1/items")).1
      = "Error searching items: 500 Server Error: Internal Server Error for url: http://h/api/v1/items")
    ∧ ((search_items ⟨"http://h", "", ""⟩ "q" 1 20
          (fun _ => HttpOutcome.success (Json.num 3))).1
        = "Unexpected error: argument of type 'int' is not iterable") := by
  have h := c1_failures_become_error_strings ⟨"http://h", "", ""⟩ (by decide)
    "q" "i" "l" 1 20
    "500 Server Error: Internal Server Error for url: http://h/api/v1/items"
    (Json.num 3) (Json.num 3) (Json.num 3) (Json.num 3)
    (PyErr.typeError "argument of type 'int' is not iterable")
    (PyErr.typeError "argument of type 'int' is not iterable")
    (PyErr.typeError "argument of type 'int' is not iterable")
    (PyErr.typeError "argument of type 'int' is not iterable")
  exact ⟨h.1, h.2.2.2.1 rfl⟩

/-- C5: the request headers always carry the two JSON content headers, and
carry the two Cloudflare Access headers (verbatim) exactly when both the
client id and the client secret are non-empty; with only one of the two
set, neither proxy header is present. -/
theorem c5_proxy_headers_all_or_nothing (v : Valves) :
    ((get_headers v).lookup "Content-Type" = some "application/json")
    ∧ ((get_headers v).lookup "Accept" = some "application/json")
    ∧ (((get_headers v).lookup "CF-Access-Client-Id" = some v.cf_client_id
        ∧ (get_headers v).lookup "CF-Access-Client-Secret" = some v.cf_client_secret)
       ↔ (v.cf_client_id ≠ "" ∧ v.cf_client_secret ≠ ""))
    ∧ ((v.cf_client_id = "" ∨ v.cf_client_secret = "") →
        (get_headers v).lookup "CF-Access-Client-Id" = none
        ∧ (get_headers v).lookup "CF-Access-Client-Secret" = none) := by
  by_cases hid : v.cf_client_id = "" <;> by_cases hsec : v.cf_client_secret = "" <;>
    simp [get_headers, hid, hsec, List.lookup]

/-- Concrete instance of C5: id set with empty secret adds neither proxy
header; both set adds both verbatim. -/
theorem c5_witness :
    (get_headers ⟨"u", "cfid", ""⟩).lookup "CF-Access-Client-Id" = none
    ∧ (get_headers ⟨"u", "cfid", ""⟩).lookup "CF-Access-Client-Secret" = none
    ∧ (get_headers ⟨"u", "cfid", "cfsec"⟩).lookup "CF-Access-Client-Id" = some "cfid"
    ∧ (get_headers ⟨"u", "cfid", "cfsec"⟩).lookup "CF-Access-Client-Secret" = some "cfsec" := by
  have h1 := c5_proxy_headers_all_or_nothing ⟨"u", "cfid", ""⟩
  have h2 := c5_proxy_headers_all_or_nothing ⟨"u", "cfid", "cfsec"⟩
  have h2' := h2.2.2.1.mpr ⟨by decide, by decide⟩
  exact ⟨(h1.2.2.2 (Or.inr rfl)).1, (h1.2.2.2 (Or.inr rfl)).2, h2'.1, h2'.2⟩

/-- C7: when the response body maps `data` to an empty list, `search_items`
returns exactly the fixed no-items message with the query interpolated. -/
theorem c7_no_items_message
    (v : Valves) (hv : v.homebox_url ≠ "") (query : String) (page pageSize : Int)
    (kvs : List (String × Json)) (hd : kvs.lookup "data" = some (Json.arr [])) :
    (search_items v query page pageSize
        (fun _ => HttpOutcome.success (Json.obj kvs))).1
      = "No items found matching '" ++ query ++ "'." := by
  have hfmt : search_items_fmt query page pageSize (Json.obj kvs)
      = Except.ok ("No items found matching '" ++ query ++ "'.") := by
    simp [search_items_fmt, dataNonempty, pyIn, Json.getField, hd, pyLen,
      Bind.bind, Except.bind, Pure.pure, Except.pure, Functor.map, Except.map]
  simp [search_items, hv, hfmt]

/-- Dropping a prefix twice is the same as dropping it once. -/
theorem dropWhile_self_idem {α : Type} (p : α → Bool) (l : List α) :
    (l.dropWhile p).dropWhile p = l.dropWhile p := by
  induction l with
  | nil => rfl
  | cons a l ih =>
    by_cases h : p a
    · simp [List.dropWhile_cons, h, ih]
    · simp [List.dropWhile_cons, h]

/-- `rstrip('/')` is idempotent. -/
theorem rstripSlash_idem (s : String) : rstripSlash (rstripSlash s) = rstripSlash s := by
  unfold rstripSlash
  rw [show (String.mk ((s.data.reverse.dropWhile (fun c => c == '/')).reverse)).data
        = (s.data.reverse.dropWhile (fun c => c == '/')).reverse from rfl]
  rw [List.reverse_reverse, dropWhile_self_idem]

/-- A string ending in `"/api"` is untouched by `rstrip('/')`. -/
theorem rstripSlash_append_api (t : String) : rstripSlash (t ++ "/api") = t ++ "/api" := by
  unfold rstripSlash
  rw [show (t ++ "/api").data = t.data ++ ['/', 'a', 'p', 'i'] from rfl]
  rw [List.reverse_append]
  have hi : (('i' : Char) == '/') = false := rfl
  have hdw : List.dropWhile (fun c => c == '/')
        ((['/', 'a', 'p', 'i'] : List Char).reverse ++ t.data.reverse)
      = (['/', 'a', 'p', 'i'] : List Char).reverse ++ t.data.reverse := by
    simp [List.dropWhile_cons, hi]
  rw [hdw, ← List.reverse_append, List.reverse_reverse]
  rfl

/-- Appending `"/api"` makes `endswith('/api')` hold. -/
theorem strEndsWith_append_api (t : String) : strEndsWith (t ++ "/api") "/api" = true := by
  unfold strEndsWith
  rw [List.isSuffixOf_iff_suffix,
    show (t ++ "/api").data = t.data ++ ("/api" : String).data from rfl]
  exact List.suffix_append _ _

/-- The boolean `rstrip` loop agrees with the spec-side recursive strip. -/
theorem dropWhile_eq_stripRev (l : List Char) :
    l.dropWhile (fun c => c == '/') = stripTrailingSlashesRev l := by
  induction l with
  | nil => rfl
  | cons c cs ih =>
    by_cases hc : c = '/'
    · simp [List.dropWhile_cons, stripTrailingSlashesRev, hc, ih]
    · simp [List.dropWhile_cons, stripTrailingSlashesRev, hc]

/-- The source's trimming removes ALL trailing slashes. -/
theorem rstripSlash_eq_stripTrailingSlashes (u : String) :
    rstripSlash u = stripTrailingSlashes u := by
  unfold rstripSlash stripTrailingSlashes
  rw [dropWhile_eq_stripRev]

/-- C3, counterexample: on a base URL with two trailing slashes the code
(which uses Python `rstrip('/')`, removing every trailing slash) and the
claim's "strip exactly one trailing '/'" rule produce different URLs. -/
theorem c3_counterexample :
    normalizeUrl "https://h.example.com//" = "https://h.example.com/api"
    ∧ normalizeUrlOneSlashSpec "https://h.example.com//" = "https://h.example.com//api"
    ∧ normalizeUrl "https://h.example.com//"
        ≠ normalizeUrlOneSlashSpec "https://h.example.com//" := by
  refine ⟨by decide, by decide, by decide⟩

/-- C3 as amended: the URL normalization used by each operation strips
ALL trailing `'/'` characters and then appends `/api` unless the trimmed
URL already ends with `/api`. -/
theorem c3_amended_strip_all_slashes (u : String) :
    normalizeUrl u =
      (if strEndsWith (stripTrailingSlashes u) "/api" then stripTrailingSlashes u
       else stripTrailingSlashes u ++ "/api") := by
  unfold normalizeUrl
  rw [rstripSlash_eq_stripTrailingSlashes]

/-- C4: URL normalization is idempotent, and both of the spec's example
URLs normalize to `https://h.example.com/api`. -/
theorem c4_normalize_idempotent (u : String) :
    normalizeUrl (normalizeUrl u) = normalizeUrl u
    ∧ normalizeUrl "https://h.example.com/" = "https://h.example.com/api"
    ∧ normalizeUrl "https://h.example.com/api" = "https://h.example.com/api" := by
  refine ⟨?_, by decide, by decide⟩
  by_cases h : strEndsWith (rstripSlash u) "/api" = true
  · rw [show normalizeUrl u = rstripSlash u by unfold normalizeUrl; simp [h]]
    unfold normalizeUrl
    simp [rstripSlash_idem, h]
  · rw [show normalizeUrl u = rstripSlash u ++ "/api" by unfold normalizeUrl; simp [h]]
    unfold normalizeUrl
    simp [rstripSlash_append_api, strEndsWith_append_api]

/-- Python's `(t + b - 1) // b` is the ceiling of `t / b` for positive
`b`. -/
theorem fdiv_formula_eq_ceil (t b : Int) (hb : 0 < b) :
    (t + b - 1).fdiv b = Int.ceil ((t : ℚ) / (b : ℚ)) := by
  have hb0 : (0 : Int) ≤ b := le_of_lt hb
  rw [Int.fdiv_eq_ediv _ hb0]
  symm
  rw [Int.ceil_eq_iff]
  have hmod := Int.ediv_add_emod (t + b - 1) b
  have hmn : 0 ≤ (t + b - 1) % b := Int.emod_nonneg _ (ne_of_gt hb)
  have hml : (t + b - 1) % b < b := Int.emod_lt_of_pos _ hb
  have hbq : (0 : ℚ) < (b : ℚ) := by exact_mod_cast hb
  constructor
  · rw [lt_div_iff₀ hbq]
    have hZ : ((t + b - 1) / b - 1) * b < t := by nlinarith
    exact_mod_cast hZ
  · rw [div_le_iff₀ hbq]
    have hZ : t ≤ ((t + b - 1) / b) * b := by nlinarith
    exact_mod_cast hZ

/-- The footer value on an integer total and a nonzero page size. -/
theorem paginationFooter_eval (page pageSize t : Int) (hps : pageSize ≠ 0) :
    paginationFooter page pageSize (Json.num t)
      = Except.ok ("Page " ++ toString page ++ " of "
            ++ toString ((t + pageSize - 1).fdiv pageSize) ++ "\n"
          ++ (if page < (t + pageSize - 1).fdiv pageSize
              then "Use 'page=" ++ toString (page + 1) ++ "' to see more results."
              else "")) := by
  simp only [paginationFooter, Json.asArithInt, Bind.bind, Except.bind]
  rw [if_neg hps]
  by_cases hlt : page < (t + pageSize - 1).fdiv pageSize
  · rw [if_pos hlt]
    simp only [if_pos hlt, Pure.pure, Except.pure, Except.ok.injEq, String.append_assoc]
  · rw [if_neg hlt]
    simp only [Pure.pure, Except.pure, Except.ok.injEq, if_neg hlt]
    rw [String.append_empty]

/-- C6: on a successful `search_items` response with at least one item and
a positive page size, the output is the operation's result, and it ends
with a pagination footer whose page count is the ceiling of
`total / page_size` and which carries a `page+1` hint exactly when
`page < total_pages`. -/
theorem c6_pagination_footer
    (v : Valves) (hv : v.homebox_url ≠ "")
    (query : String) (page pageSize t : Int) (items : List Json)
    (kvs : List (String × Json)) (out : String)
    (hps : 0 < pageSize)
    (hd : kvs.lookup "data" = some (Json.arr items))
    (hne : items ≠ [])
    (ht : kvs.lookup "total" = some (Json.num t))
    (hout : search_items_fmt query page pageSize (Json.obj kvs) = Except.ok out) :
    ((search_items v query page pageSize
        (fun _ => HttpOutcome.success (Json.obj kvs))).1 = out)
    ∧ ∃ body : String,
        out = body
          ++ ("Page " ++ toString page ++ " of "
                ++ toString (Int.ceil ((t : ℚ) / (pageSize : ℚ))) ++ "\n"
              ++ (if page < Int.ceil ((t : ℚ) / (pageSize : ℚ))
                  then "Use 'page=" ++ toString (page + 1) ++ "' to see more results."
                  else "")) := by
  constructor
  · simp [search_items, hv, hout]
  · have hdn : dataNonempty (Json.obj kvs) = Except.ok true := by
      simp [dataNonempty, pyIn, Json.getField, hd, pyLen, Bind.bind, Except.bind,
        Pure.pure, Except.pure, List.length_pos, hne]
    have hgt : Json.getField (Json.obj kvs) "total" = Except.ok (Json.num t) := by
      simp [Json.getField, ht]
    have hgd : Json.getField (Json.obj kvs) "data" = Except.ok (Json.arr items) := by
      simp [Json.getField, hd]
    rw [← fdiv_formula_eq_ceil t pageSize hps]
    simp only [search_items_fmt, hdn, hgt, hgd, Bind.bind, Except.bind, pyElems,
      if_true] at hout
    cases hR : renderBlocks searchItemBlock items 1 with
    | error e => rw [hR] at hout; simp at hout
    | ok body =>
      rw [hR, paginationFooter_eval page pageSize t (by omega)] at hout
      simp only [Pure.pure, Except.pure, Except.ok.injEq] at hout
      exact ⟨"Found " ++ pyStr (Json.num t) ++ " items matching '" ++ query
          ++ "':\n\n" ++ body, hout.symm⟩

/-- Concrete instance of C6: the spec's example (`total=25`, `page=2`,
`page_size=10`) produces a `Page 2 of 3` footer and a `page=3` hint. -/
theorem c6_witness : ∃ body : String,
    (search_items ⟨"http://h", "", ""⟩ "drill" 2 10
        (fun _ => HttpOutcome.success
          (Json.obj [("data", Json.arr [Json.obj [("name", Json.str "Drill")]]),
                     ("total", Json.num 25)]))).1
      = body ++ ("Page 2 of 3\n" ++ "Use 'page=3' to see more results.") := by
  have h := c6_pagination_footer ⟨"http://h", "", ""⟩ (by decide) "drill" 2 10 25
    [Json.obj [("name", Json.str "Drill")]]
    [("data", Json.arr [Json.obj [("name", Json.str "Drill")]]), ("total", Json.num 25)]
    "Found 25 items matching 'drill':\n\n1. Drill\n\nPage 2 of 3\nUse 'page=3' to see more results."
    (by norm_num) rfl (by simp) rfl rfl
  obtain ⟨body, hb⟩ := h.2
  have hc : Int.ceil ((((25 : Int) : ℚ)) / (((10 : Int) : ℚ))) = 3 := by
    rw [Int.ceil_eq_iff]
    norm_num
  rw [hc] at hb
  refine ⟨body, ?_⟩
  rw [h.1, hb]
  congr 1

/-- Concrete instance of C7. -/
theorem c7_witness :
    (search_items ⟨"http://h", "", ""⟩ "xyz" 1 20
        (fun _ => HttpOutcome.success
          (Json.obj [("data", Json.arr []), ("total", Json.num 0)]))).1
      = "No items found matching 'xyz'." := by
  exact c7_no_items_message ⟨"http://h", "", ""⟩ (by decide) "xyz" 1 20
    [("data", Json.arr []), ("total", Json.num 0)] rfl

/-- A successful bind splits into a successful first step and a
successful continuation. -/
theorem except_bind_ok {α β : Type} {x : Except PyErr α} {f : α → Except PyErr β} {b : β}
    (h : x >>= f = Except.ok b) : ∃ a, x = Except.ok a ∧ f a = Except.ok b := by
  cases x with
  | error e => simp [Bind.bind, Except.bind] at h
  | ok a => exact ⟨a, rfl, by simpa [Bind.bind, Except.bind] using h⟩

/-- A successful map splits into a successful step and the mapped
value. -/
theorem except_map_ok {α β : Type} {x : Except PyErr α} {f : α → β} {b : β}
    (h : f <$> x = Except.ok b) : ∃ a, x = Except.ok a ∧ f a = b := by
  cases x with
  | error e => simp [Functor.map, Except.map] at h
  | ok a => exact ⟨a, rfl, by simpa [Functor.map, Except.map] using h⟩

/-- A string that begins with `pfx` satisfies `startswith(pfx)`. -/
theorem strStartsWith_append (pfx x : String) : strStartsWith (pfx ++ x) pfx = true := by
  unfold strStartsWith
  rw [List.isPrefixOf_iff_prefix, show (pfx ++ x).data = pfx.data ++ x.data from rfl]
  exact List.prefix_append _ _

/-- A string that fails `startswith(pfx)` is not `pfx ++ x`. -/
theorem prefix_append_ne (pfx x s : String) (h : strStartsWith s pfx = false) :
    pfx ++ x ≠ s := by
  intro he
  rw [← he, strStartsWith_append] at h
  cases h

/-- `join` on a nonempty list starts with the first element. -/
theorem pyJoin_cons (sep a : String) (l : List String) :
    ∃ r : String, pyJoin sep (a :: l) = a ++ r := by
  cases l with
  | nil => exact ⟨"", by simp [pyJoin]⟩
  | cons b l' => exact ⟨sep ++ pyJoin sep (b :: l'), by simp [pyJoin, String.append_assoc]⟩

/-- A successful field access happens on an object with the key
present. -/
theorem getField_ok_obj {item : Json} {k : String} {v : Json}
    (h : item.getField k = Except.ok v) :
    ∃ kvs, item = Json.obj kvs ∧ kvs.lookup k = some v := by
  cases item with
  | obj kvs =>
    refine ⟨kvs, rfl, ?_⟩
    rcases hl : kvs.lookup k with _ | w
    · simp [Json.getField, hl] at h
    · simp [Json.getField, hl] at h
      simp [h]
  | null => simp [Json.getField] at h
  | bool b => simp [Json.getField] at h
  | num n => simp [Json.getField] at h
  | str s => simp [Json.getField] at h
  | arr xs => simp [Json.getField] at h

/-- On an object, `truthyEntry` evaluates to `truthyEntryVal`. -/
theorem truthyEntry_eval (kvs : List (String × Json)) (k pfx : String) :
    truthyEntry (Json.obj kvs) k pfx = Except.ok (truthyEntryVal kvs k pfx) := by
  rcases h : kvs.lookup k with _ | v
  · simp [truthyEntry, truthyEntryVal, pyIn, Json.getField, h,
      Bind.bind, Except.bind, Pure.pure, Except.pure]
  · by_cases ht : v.truthy <;>
      simp [truthyEntry, truthyEntryVal, pyIn, Json.getField, h, ht,
        Bind.bind, Except.bind, Pure.pure, Except.pure]

/-- On an object, `warrantyEntries` evaluates to `warrantyEntriesVal`. -/
theorem warrantyEntries_eval (kvs : List (String × Json)) :
    warrantyEntries (Json.obj kvs) = Except.ok (warrantyEntriesVal kvs) := by
  rcases h : kvs.lookup "lifetimeWarranty" with _ | v
  · simp [warrantyEntries, warrantyEntriesVal, pyIn, Json.getField, h,
      Json.keyTruthy, Json.lookup?, truthyEntry_eval,
      Bind.bind, Except.bind, Pure.pure, Except.pure]
  · by_cases ht : v.truthy <;>
      simp [warrantyEntries, warrantyEntriesVal, pyIn, Json.getField, h, ht,
        Json.keyTruthy, Json.lookup?, truthyEntry_eval,
        Bind.bind, Except.bind, Pure.pure, Except.pure]

/-- An entry list component is nonempty exactly when its key is mapped to
a truthy value. -/
theorem truthyEntryVal_ne_nil_iff (kvs : List (String × Json)) (k pfx : String) :
    truthyEntryVal kvs k pfx ≠ [] ↔ (Json.obj kvs).keyTruthy k = true := by
  rcases h : kvs.lookup k with _ | v
  · simp [truthyEntryVal, Json.keyTruthy, Json.lookup?, h]
  · by_cases ht : v.truthy <;> simp [truthyEntryVal, Json.keyTruthy, Json.lookup?, h, ht]

/-- Every member of an entry list component carries the component's
prefix. -/
theorem truthyEntryVal_mem {kvs : List (String × Json)} {k pfx s : String}
    (h : s ∈ truthyEntryVal kvs k pfx) : ∃ v, s = pfx ++ pyStr v := by
  rcases hl : kvs.lookup k with _ | v
  · rw [truthyEntryVal, hl] at h
    cases h
  · rw [truthyEntryVal, hl] at h
    by_cases ht : v.truthy
    · simp [ht] at h
      exact ⟨v, h⟩
    · simp [ht] at h

/-- String append is injective on list data. -/
theorem string_data_append (s t : String) : (s ++ t).data = s.data ++ t.data := rfl

/-- A rendered section is nonempty exactly when its entry list is. -/
theorem entrySection_ne_empty_iff (heading : String) (entries : List String) :
    entrySection heading entries ≠ "" ↔ entries ≠ [] := by
  cases entries with
  | nil => simp [entrySection]
  | cons a l =>
    constructor
    · intro _
      simp
    · intro _ h
      rw [entrySection, if_neg (by simp)] at h
      have hd := congrArg String.data h
      have hn : ("\n" : String).data = ['\n'] := rfl
      simp [string_data_append, hn] at hd

/-- A nonempty rendered section starts with its heading. -/
theorem entrySection_cons (heading : String) (entries : List String)
    (h : entries ≠ []) :
    ∃ rest, entrySection heading entries = heading ++ rest := by
  cases entries with
  | nil => exact absurd rfl h
  | cons a l =>
    refine ⟨pyJoin "\n" (a :: l) ++ "\n", ?_⟩
    simp [entrySection, String.append_assoc]

/-- A rendered section embeds its first entry. -/
theorem entrySection_embeds_head (heading a : String) (l : List String) :
    embedsStr (entrySection heading (a :: l)) a := by
  obtain ⟨r, hr⟩ := pyJoin_cons "\n" a l
  refine ⟨heading, r ++ "\n", ?_⟩
  simp [entrySection, hr, String.append_assoc]

/-- The warranty entry list is nonempty exactly when one of the three
warranty keys is mapped to a truthy value. -/
theorem warrantyEntriesVal_ne_nil_iff (kvs : List (String × Json)) :
    warrantyEntriesVal kvs ≠ []
      ↔ ((Json.obj kvs).keyTruthy "lifetimeWarranty" = true
         ∨ (Json.obj kvs).keyTruthy "warrantyDetails" = true
         ∨ (Json.obj kvs).keyTruthy "warrantyExpires" = true) := by
  constructor
  · intro h
    by_contra hc
    push_neg at hc
    obtain ⟨h1, h2, h3⟩ := hc
    apply h
    have e2 : truthyEntryVal kvs "warrantyDetails" "- Warranty Details: " = [] := by
      by_contra hne
      exact h2 ((truthyEntryVal_ne_nil_iff kvs _ _).mp hne)
    have e3 : truthyEntryVal kvs "warrantyExpires" "- Warranty Expires: " = [] := by
      by_contra hne
      exact h3 ((truthyEntryVal_ne_nil_iff kvs _ _).mp hne)
    rw [warrantyEntriesVal, if_neg (by simpa using h1), e2, e3]
    rfl
  · intro h hnil
    rw [warrantyEntriesVal] at hnil
    rw [List.append_eq_nil, List.append_eq_nil] at hnil
    obtain ⟨⟨n1, n2⟩, n3⟩ := hnil
    rcases h with h | h | h
    · rw [if_pos h] at n1
      cases n1
    · exact (truthyEntryVal_ne_nil_iff kvs _ _).mpr h n2
    · exact (truthyEntryVal_ne_nil_iff kvs _ _).mpr h n3

/-- The literal `Yes` entry is in the warranty list exactly when the
lifetime flag is truthy (the details/expiry entries carry different
prefixes, so they can never equal it). -/
theorem warrantyEntriesVal_yes_mem_iff (kvs : List (String × Json)) :
    ("- Lifetime Warranty: Yes" ∈ warrantyEntriesVal kvs)
      ↔ (Json.obj kvs).keyTruthy "lifetimeWarranty" = true := by
  constructor
  · intro h
    rw [warrantyEntriesVal] at h
    rcases List.mem_append.mp h with h | h
    · rcases List.mem_append.mp h with h | h
      · by_cases hk : (Json.obj kvs).keyTruthy "lifetimeWarranty" = true
        · exact hk
        · rw [if_neg (by simpa using hk)] at h
          cases h
      · obtain ⟨v, hv⟩ := truthyEntryVal_mem h
        exact absurd hv.symm (prefix_append_ne _ _ _ (by decide))
    · obtain ⟨v, hv⟩ := truthyEntryVal_mem h
      exact absurd hv.symm (prefix_append_ne _ _ _ (by decide))
  · intro h
    rw [warrantyEntriesVal, if_pos h]
    simp

/-- C8: in every successful `get_item_details` output, the warranty
section component is nonempty (and then starts with the
`Warranty Information` heading) exactly when at least one of the
lifetime-warranty flag, warranty details, or warranty expiry is present
and truthy; the literal `- Lifetime Warranty: Yes` entry occurs exactly
when the flag is truthy; with no warranty field present the section is
empty, so the output carries no `Warranty Information` heading. -/
theorem c8_warranty_block
    (item : Json) (out : String)
    (hout : get_item_details_fmt item = Except.ok out) :
    ∃ pre post entries,
      warrantyEntries item = Except.ok entries
      ∧ out = pre ++ entrySection "\nWarranty Information:\n" entries ++ post
      ∧ (entrySection "\nWarranty Information:\n" entries ≠ ""
          ↔ (item.keyTruthy "lifetimeWarranty" = true
             ∨ item.keyTruthy "warrantyDetails" = true
             ∨ item.keyTruthy "warrantyExpires" = true))
      ∧ (("- Lifetime Warranty: Yes" ∈ entries)
          ↔ item.keyTruthy "lifetimeWarranty" = true)
      ∧ (entries ≠ [] →
          ∃ rest, entrySection "\nWarranty Information:\n" entries
            = "\nWarranty Information:\n" ++ rest)
      ∧ (item.keyTruthy "lifetimeWarranty" = true →
          embedsStr (entrySection "\nWarranty Information:\n" entries)
            "- Lifetime Warranty: Yes") := by
  rw [get_item_details_fmt] at hout
  obtain ⟨name, hname, hout⟩ := except_bind_ok hout
  obtain ⟨kvs, hobj, hnk⟩ := getField_ok_obj hname
  subst hobj
  obtain ⟨desc, hdesc, hout⟩ := except_bind_ok hout
  obtain ⟨asset, hasset, hout⟩ := except_bind_ok hout
  obtain ⟨qty, hqty, hout⟩ := except_bind_ok hout
  obtain ⟨man, hman, hout⟩ := except_bind_ok hout
  obtain ⟨mdl, hmdl, hout⟩ := except_bind_ok hout
  obtain ⟨ser, hser, hout⟩ := except_bind_ok hout
  obtain ⟨loc, hloc, hout⟩ := except_bind_ok hout
  obtain ⟨pur, hpur, hout⟩ := except_bind_ok hout
  obtain ⟨war, hwar, hout⟩ := except_bind_ok hout
  obtain ⟨cf, hcf, hout⟩ := except_bind_ok hout
  obtain ⟨notes, hnotes, hout⟩ := except_map_ok hout
  rw [warrantySection] at hwar
  obtain ⟨entries, hent, hwar⟩ := except_map_ok hwar
  rw [warrantyEntries_eval] at hent
  have hentv : entries = warrantyEntriesVal kvs := by
    cases hent
    rfl
  refine ⟨"Item Details: " ++ pyStr name ++ "\n\n" ++ desc ++ "Basic Information:\n"
      ++ asset ++ qty ++ man ++ mdl ++ ser ++ loc ++ pur,
    cf ++ notes, entries, ?_, ?_, ?_, ?_, ?_, ?_⟩
  · rw [warrantyEntries_eval, hentv]
  · have hw : war = entrySection "\nWarranty Information:\n" entries := by
      simpa [Pure.pure, Except.pure] using hwar.symm
    rw [← hout, hw, String.append_assoc]
  · rw [hentv, entrySection_ne_empty_iff]
    exact warrantyEntriesVal_ne_nil_iff kvs
  · rw [hentv]
    exact warrantyEntriesVal_yes_mem_iff kvs
  · exact entrySection_cons _ entries
  · intro hk
    have : entries = "- Lifetime Warranty: Yes"
        :: (truthyEntryVal kvs "warrantyDetails" "- Warranty Details: "
            ++ truthyEntryVal kvs "warrantyExpires" "- Warranty Expires: ") := by
      rw [hentv, warrantyEntriesVal, if_pos hk]
      simp
    rw [this]
    exact entrySection_embeds_head _ _ _

/-- Concrete instance of C8: a payload with no warranty field yields an
empty warranty section and no heading. -/
theorem c8_witness : ∃ pre post entries,
    warrantyEntries (Json.obj [("name", Json.str "X")]) = Except.ok entries
    ∧ "Item Details: X\n\nBasic Information:\n"
        = pre ++ entrySection "\nWarranty Information:\n" entries ++ post
    ∧ (entrySection "\nWarranty Information:\n" entries ≠ ""
        ↔ ((Json.obj [("name", Json.str "X")]).keyTruthy "lifetimeWarranty" = true
           ∨ (Json.obj [("name", Json.str "X")]).keyTruthy "warrantyDetails" = true
           ∨ (Json.obj [("name", Json.str "X")]).keyTruthy "warrantyExpires" = true))
    ∧ (("- Lifetime Warranty: Yes" ∈ entries)
        ↔ (Json.obj [("name", Json.str "X")]).keyTruthy "lifetimeWarranty" = true)
    ∧ (entries ≠ [] → ∃ rest, entrySection "\nWarranty Information:\n" entries
        = "\nWarranty Information:\n" ++ rest)
    ∧ ((Json.obj [("name", Json.str "X")]).keyTruthy "lifetimeWarranty" = true →
        embedsStr (entrySection "\nWarranty Information:\n" entries)
          "- Lifetime Warranty: Yes") :=
  c8_warranty_block (Json.obj [("name", Json.str "X")])
    "Item Details: X\n\nBasic Information:\n" rfl

/-- With the first item's `location` absent or falsy, the displayed name
is the placeholder. -/
theorem locationDisplayName_unknown (kvs1 : List (String × Json)) (rest : List Json)
    (hkt : (Json.obj kvs1).keyTruthy "location" = false) :
    locationDisplayName (Json.arr (Json.obj kvs1 :: rest)) = Except.ok "Unknown Location" := by
  rcases hl : kvs1.lookup "location" with _ | loc
  · simp [locationDisplayName, pyLen, pyIndexZero, pyIn, Json.getField, hl,
      Bind.bind, Except.bind, Pure.pure, Except.pure]
  · have ht : loc.truthy = false := by
      rw [Json.keyTruthy, Json.lookup?, hl] at hkt
      exact hkt
    simp [locationDisplayName, pyLen, pyIndexZero, pyIn, Json.getField, hl, ht,
      Bind.bind, Except.bind, Pure.pure, Except.pure]

/-- With the first item's `location` present and truthy, the displayed
name is that location's `name`. -/
theorem locationDisplayName_from_first (kvs1 : List (String × Json)) (rest : List Json)
    (loc nm : Json) (hl : kvs1.lookup "location" = some loc) (ht : loc.truthy = true)
    (hn : loc.getField "name" = Except.ok nm) :
    locationDisplayName (Json.arr (Json.obj kvs1 :: rest)) = Except.ok (pyStr nm) := by
  have hgf : Json.getField (Json.obj kvs1) "location" = Except.ok loc := by
    simp [Json.getField, hl]
  simp [locationDisplayName, pyLen, pyIndexZero, pyIn, hl, ht, hn, hgf,
    Bind.bind, Except.bind, Pure.pure, Except.pure]

/-- C9: the header of a successful nonempty `search_items_by_location`
output displays `locationDisplayName` of the returned data: the first
item's embedded location name when present and truthy, the fixed
`Unknown Location` placeholder otherwise, regardless of the queried
location id. -/
theorem c9_location_header
    (v : Valves) (hv : v.homebox_url ≠ "") (lid lid2 : String) (page pageSize : Int)
    (kvs : List (String × Json)) (first : Json) (rest : List Json) (out : String)
    (hd : kvs.lookup "data" = some (Json.arr (first :: rest)))
    (hout : search_items_by_location_fmt page pageSize (Json.obj kvs) = Except.ok out) :
    (∃ total locName tail,
        kvs.lookup "total" = some total
        ∧ locationDisplayName (Json.arr (first :: rest)) = Except.ok locName
        ∧ out = "Found " ++ pyStr total ++ " items in location '" ++ locName
            ++ "':\n\n" ++ tail)
    ∧ (∀ kvs1 : List (String × Json), first = Json.obj kvs1 →
        (Json.obj kvs1).keyTruthy "location" = false →
        locationDisplayName (Json.arr (first :: rest)) = Except.ok "Unknown Location")
    ∧ (∀ (kvs1 : List (String × Json)) (loc nm : Json), first = Json.obj kvs1 →
        kvs1.lookup "location" = some loc → loc.truthy = true →
        loc.getField "name" = Except.ok nm →
        locationDisplayName (Json.arr (first :: rest)) = Except.ok (pyStr nm))
    ∧ ((search_items_by_location v lid page pageSize
          (fun _ => HttpOutcome.success (Json.obj kvs))).1
        = (search_items_by_location v lid2 page pageSize
            (fun _ => HttpOutcome.success (Json.obj kvs))).1) := by
  have hdn : dataNonempty (Json.obj kvs) = Except.ok true := by
    simp [dataNonempty, pyIn, Json.getField, hd, pyLen,
      Bind.bind, Except.bind, Pure.pure, Except.pure]
  have hgd : Json.getField (Json.obj kvs) "data"
      = Except.ok (Json.arr (first :: rest)) := by
    simp [Json.getField, hd]
  refine ⟨?_, ?_, ?_, ?_⟩
  · rw [search_items_by_location_fmt] at hout
    obtain ⟨ne, hne1, hout⟩ := except_bind_ok hout
    rw [hdn] at hne1
    have hne2 : ne = true := by
      cases hne1
      rfl
    subst hne2
    rw [if_pos rfl] at hout
    obtain ⟨d, hgd2, hout⟩ := except_bind_ok hout
    rw [hgd] at hgd2
    have hdd : d = Json.arr (first :: rest) := by
      cases hgd2
      rfl
    subst hdd
    obtain ⟨locName, hln, hout⟩ := except_bind_ok hout
    obtain ⟨total, htot, hout⟩ := except_bind_ok hout
    have htot2 : kvs.lookup "total" = some total := by
      obtain ⟨kvs2, he, hl⟩ := getField_ok_obj htot
      injection he with he2
      subst he2
      exact hl
    obtain ⟨elems, hel, hout⟩ := except_bind_ok hout
    obtain ⟨body, hbody, hout⟩ := except_bind_ok hout
    obtain ⟨footer, hfoot, hout⟩ := except_map_ok hout
    refine ⟨total, locName, body ++ footer, htot2, hln, ?_⟩
    rw [← hout, ← String.append_assoc]
  · intro kvs1 hf hkt
    subst hf
    exact locationDisplayName_unknown kvs1 rest hkt
  · intro kvs1 loc nm hf hl ht hn
    subst hf
    exact locationDisplayName_from_first kvs1 rest loc nm hl ht hn
  · cases hf : search_items_by_location_fmt page pageSize (Json.obj kvs) <;>
      simp [search_items_by_location, hv, hf]

/-- Concrete instance of C9: a first item with no `location` field makes
the header read `Unknown Location` although a location id was queried. -/
theorem c9_witness :
    ∃ total locName tail,
      ([("data", Json.arr [Json.obj [("name", Json.str "X")]]),
        ("total", Json.num 1)] : List (String × Json)).lookup "total" = some total
      ∧ locationDisplayName (Json.arr [Json.obj [("name", Json.str "X")]])
          = Except.ok locName
      ∧ "Found 1 items in location 'Unknown Location':\n\n1. X\n\nPage 1 of 1\n"
          = "Found " ++ pyStr total ++ " items in location '" ++ locName
              ++ "':\n\n" ++ tail :=
  (c9_location_header ⟨"http://h", "", ""⟩ (by decide) "L1" "L2" 1 20
    [("data", Json.arr [Json.obj [("name", Json.str "X")]]), ("total", Json.num 1)]
    (Json.obj [("name", Json.str "X")]) []
    "Found 1 items in location 'Unknown Location':\n\n1. X\n\nPage 1 of 1\n"
    rfl rfl).1

/-- A present `quantity`-style key renders its line whatever the value. -/
theorem presentField_present (kvs : List (String × Json)) (k pfx sfx : String)
    (v : Json) (h : kvs.lookup k = some v) :
    presentField (Json.obj kvs) k pfx sfx = Except.ok (pfx ++ pyStr v ++ sfx) := by
  simp [presentField, pyIn, Json.getField, h,
    Bind.bind, Except.bind, Pure.pure, Except.pure]

/-- A present-but-falsy truthiness-gated key renders nothing. -/
theorem truthyField_falsy (kvs : List (String × Json)) (k pfx sfx : String)
    (v : Json) (h : kvs.lookup k = some v) (ht : v.truthy = false) :
    truthyField (Json.obj kvs) k pfx sfx = Except.ok "" := by
  simp [truthyField, pyIn, Json.getField, h, ht,
    Bind.bind, Except.bind, Pure.pure, Except.pure]

/-- A present-and-truthy truthiness-gated key renders its line. -/
theorem truthyField_truthy (kvs : List (String × Json)) (k pfx sfx : String)
    (v : Json) (h : kvs.lookup k = some v) (ht : v.truthy = true) :
    truthyField (Json.obj kvs) k pfx sfx = Except.ok (pfx ++ pyStr v ++ sfx) := by
  simp [truthyField, pyIn, Json.getField, h, ht,
    Bind.bind, Except.bind, Pure.pure, Except.pure]

/-- A present-but-falsy key contributes no entry to an entry list. -/
theorem truthyEntry_falsy (kvs : List (String × Json)) (k pfx : String)
    (v : Json) (h : kvs.lookup k = some v) (ht : v.truthy = false) :
    truthyEntry (Json.obj kvs) k pfx = Except.ok [] := by
  simp [truthyEntry, pyIn, Json.getField, h, ht,
    Bind.bind, Except.bind, Pure.pure, Except.pure]

/-- A present-but-falsy `location` renders no location line. -/
theorem locationLine_falsy (kvs : List (String × Json)) (pfx sfx : String)
    (v : Json) (h : kvs.lookup "location" = some v) (ht : v.truthy = false) :
    locationLine (Json.obj kvs) pfx sfx = Except.ok "" := by
  simp [locationLine, pyIn, Json.getField, h, ht,
    Bind.bind, Except.bind, Pure.pure, Except.pure]

/-- C10: in the per-item blocks of all three listing operations, the
quantity line is rendered whenever the `quantity` key is present (even
with value 0), while every truthiness-gated optional field (description,
location, assetId, manufacturer, modelNumber, the purchase and warranty
entries, notes) renders only when present AND truthy, so a
present-but-falsy value renders exactly like an absent one. -/
theorem c10_quantity_always_other_fields_truthy_gated
    (kvs : List (String × Json)) (idx : Nat) (out : String) (v : Json)
    (k pfx sfx : String) :
    (kvs.lookup "quantity" = some v →
      presentField (Json.obj kvs) "quantity" pfx sfx
        = Except.ok (pfx ++ pyStr v ++ sfx))
    ∧ (kvs.lookup k = some v → v.truthy = false →
      truthyField (Json.obj kvs) k pfx sfx = Except.ok "")
    ∧ (kvs.lookup k = some v → v.truthy = true →
      truthyField (Json.obj kvs) k pfx sfx = Except.ok (pfx ++ pyStr v ++ sfx))
    ∧ (kvs.lookup "location" = some v → v.truthy = false →
      locationLine (Json.obj kvs) pfx sfx = Except.ok "")
    ∧ (kvs.lookup k = some v → v.truthy = false →
      truthyEntry (Json.obj kvs) k pfx = Except.ok [])
    ∧ (searchItemBlock idx (Json.obj kvs) = Except.ok out →
        kvs.lookup "quantity" = some v →
        embedsStr out ("   Quantity: " ++ pyStr v ++ "\n"))
    ∧ (locItemBlock idx (Json.obj kvs) = Except.ok out →
        kvs.lookup "quantity" = some v →
        embedsStr out ("   Quantity: " ++ pyStr v ++ "\n"))
    ∧ (get_item_details_fmt (Json.obj kvs) = Except.ok out →
        kvs.lookup "quantity" = some v →
        embedsStr out ("- Quantity: " ++ pyStr v ++ "\n"))
    ∧ (v.truthy = false → kvs.lookup "description" = none →
        searchItemBlock idx (Json.obj (("description", v) :: kvs))
          = searchItemBlock idx (Json.obj kvs)) := by
  refine ⟨?_, ?_, ?_, ?_, ?_, ?_, ?_, ?_, ?_⟩
  · intro h
    exact presentField_present kvs "quantity" pfx sfx v h
  · intro h ht
    exact truthyField_falsy kvs k pfx sfx v h ht
  · intro h ht
    exact truthyField_truthy kvs k pfx sfx v h ht
  · intro h ht
    exact locationLine_falsy kvs pfx sfx v h ht
  · intro h ht
    exact truthyEntry_falsy kvs k pfx v h ht
  · intro hB h
    rw [searchItemBlock] at hB
    obtain ⟨name, hname, hB⟩ := except_bind_ok hB
    obtain ⟨desc, hdesc, hB⟩ := except_bind_ok hB
    obtain ⟨loc, hloc, hB⟩ := except_bind_ok hB
    obtain ⟨asset, hasset, hB⟩ := except_bind_ok hB
    obtain ⟨qty, hqty, hB⟩ := except_bind_ok hB
    obtain ⟨man, hman, hB⟩ := except_bind_ok hB
    obtain ⟨mdl, hmdl, hB⟩ := except_map_ok hB
    rw [presentField_present kvs "quantity" "   Quantity: " "\n" v h] at hqty
    have hq : qty = "   Quantity: " ++ pyStr v ++ "\n" := by
      cases hqty
      rfl
    subst hq
    refine ⟨toString idx ++ ". " ++ pyStr name ++ "\n" ++ desc ++ loc ++ asset,
      man ++ mdl ++ "\n", ?_⟩
    rw [← hB]
    simp [String.append_assoc]
  · intro hB h
    rw [locItemBlock] at hB
    obtain ⟨name, hname, hB⟩ := except_bind_ok hB
    obtain ⟨desc, hdesc, hB⟩ := except_bind_ok hB
    obtain ⟨asset, hasset, hB⟩ := except_bind_ok hB
    obtain ⟨qty, hqty, hB⟩ := except_map_ok hB
    rw [presentField_present kvs "quantity" "   Quantity: " "\n" v h] at hqty
    have hq : qty = "   Quantity: " ++ pyStr v ++ "\n" := by
      cases hqty
      rfl
    subst hq
    refine ⟨toString idx ++ ". " ++ pyStr name ++ "\n" ++ desc ++ asset, "\n", ?_⟩
    rw [← hB]
  · intro hB h
    rw [get_item_details_fmt] at hB
    obtain ⟨name, hname, hB⟩ := except_bind_ok hB
    obtain ⟨desc, hdesc, hB⟩ := except_bind_ok hB
    obtain ⟨asset, hasset, hB⟩ := except_bind_ok hB
    obtain ⟨qty, hqty, hB⟩ := except_bind_ok hB
    obtain ⟨man, hman, hB⟩ := except_bind_ok hB
    obtain ⟨mdl, hmdl, hB⟩ := except_bind_ok hB
    obtain ⟨ser, hser, hB⟩ := except_bind_ok hB
    obtain ⟨loc, hloc, hB⟩ := except_bind_ok hB
    obtain ⟨pur, hpur, hB⟩ := except_bind_ok hB
    obtain ⟨war, hwar, hB⟩ := except_bind_ok hB
    obtain ⟨cf, hcf, hB⟩ := except_bind_ok hB
    obtain ⟨notes, hnotes, hB⟩ := except_map_ok hB
    rw [presentField_present kvs "quantity" "- Quantity: " "\n" v h] at hqty
    have hq : qty = "- Quantity: " ++ pyStr v ++ "\n" := by
      cases hqty
      rfl
    subst hq
    refine ⟨"Item Details: " ++ pyStr name ++ "\n\n" ++ desc
        ++ "Basic Information:\n" ++ asset,
      man ++ mdl ++ ser ++ loc ++ pur ++ war ++ cf ++ notes, ?_⟩
    rw [← hB]
    simp [String.append_assoc]
  · intro ht hnone
    simp [searchItemBlock, truthyField, presentField, locationLine, pyIn,
      Json.getField, List.lookup, ht, hnone,
      Bind.bind, Except.bind, Pure.pure, Except.pure]

/-- Concrete instance of C10: `quantity: 0` renders a `Quantity: 0` line,
while `description: ""` (present but falsy) renders nothing, exactly
like the block with no description key at all. -/
theorem c10_witness :
    embedsStr "1. X\n   Quantity: 0\n\n" ("   Quantity: 0\n")
    ∧ searchItemBlock 1 (Json.obj [("description", Json.str ""),
        ("name", Json.str "X"), ("quantity", Json.num 0)])
      = searchItemBlock 1 (Json.obj [("name", Json.str "X"), ("quantity", Json.num 0)]) := by
  have hA := c10_quantity_always_other_fields_truthy_gated
    [("name", Json.str "X"), ("quantity", Json.num 0)] 1 "1. X\n   Quantity: 0\n\n"
    (Json.num 0) "quantity" "p" "s"
  have hB := c10_quantity_always_other_fields_truthy_gated
    [("name", Json.str "X"), ("quantity", Json.num 0)] 1 ""
    (Json.str "") "description" "p" "s"
  exact ⟨hA.2.2.2.2.2.1 rfl rfl, hB.2.2.2.2.2.2.2.2 rfl rfl⟩

end HomeboxSearch
